import Mathlib

/-!
Verification of the query/validation/error-normalization layer of the
Zenlayer looking-glass MCP server (`src/looking_glass.py`).

Each tool function issues one HTTP GET and post-processes the response.
We embed each tool as a pure function of its string inputs and of the
observed backend outcome (`HTTPOutcome`): a 2xx response with a parsed
JSON body, a non-2xx status code (for which `response.raise_for_status()`
raises `httpx.HTTPStatusError`), or a transport failure
(`httpx.RequestError`).  A raised `ToolError(msg)` is embedded as
`Except.error msg`; a normal return as `Except.ok`.

JSON numbers are embedded as `Int` (no property below does numeric
arithmetic, so the exact numeric universe is irrelevant).  The text of
`str(e)` for Python exceptions whose rendering depends on the
interpreter/pydantic version (`TypeError`, `pydantic.ValidationError`,
`httpx` exception text) is abstracted by named constants; every
property below depends only on the fixed message heads that
`looking_glass.py` itself concatenates, plus `str(KeyError(k))`, which
is determinate (`'k'` with single quotes).
-/

namespace ZenLG

/-- Parsed JSON values, as produced by `response.json()`. -/
inductive JSON where
  | null : JSON
  | str (s : String) : JSON
  | num (n : Int) : JSON
  | arr (items : List JSON) : JSON
  | obj (kvs : List (String × JSON)) : JSON

/-- Python truthiness test `if not res_json:` on a parsed JSON value:
`None`, `{}`, `[]`, `""` and `0` are falsy. -/
def falsy : JSON → Bool
  | .null => true
  | .obj [] => true
  | .arr [] => true
  | .str "" => true
  | .num 0 => true
  | _ => false

/-- Observed outcome of the single `httpx.get` a tool performs:
a 2xx response with parsed JSON body, a non-2xx status code, or a
transport failure carrying `str(e)`. -/
inductive HTTPOutcome where
  | success (payload : JSON) : HTTPOutcome
  | httpError (code : Nat) : HTTPOutcome
  | transportError (detail : String) : HTTPOutcome

/-- Python `str(KeyError(k))` renders as the repr of the key: `'k'`. -/
def keyErrorStr (k : String) : String := "\x27" ++ k ++ "\x27"

/-- Abstracted `str(e)` of a `pydantic.ValidationError` (its exact text
depends on the pydantic version; only the fixed head that the code
prepends is relied upon below). -/
def pydanticDetail : String := "pydantic validation error"

/-- Abstracted `str(e)` of a Python `TypeError` (indexing / unpacking a
non-mapping); only the fixed head prepended by the code matters. -/
def typeErrorDetail : String := "type error"

/-- Abstracted `str(e)` of an `httpx.HTTPStatusError` reaching a bare
`except Exception` handler. -/
def httpStatusDetail (code : Nat) : String := "HTTP status error " ++ toString code

/-- Message of the catch-all branch `except Exception as e`. -/
def unexpectedMsg (detail : String) : String :=
  "Unexpected error occurred: " ++ detail

/-- Message of the branch `except ValidationError as e`. -/
def shapeMsg (detail : String) : String :=
  "Invalid response format. Details: " ++ detail

/-- A message is Unexpected-classified iff it is what the catch-all
`except Exception` branch emits. -/
def isUnexpectedClass (m : String) : Prop := ∃ d, m = unexpectedMsg d

/-- A message is ShapeError-classified iff it is what the
`except ValidationError` branch emits. -/
def isShapeClass (m : String) : Prop := ∃ d, m = shapeMsg d

/-! ### Input validation of `get_city_delay` (lines 64-67) -/

/-- ASCII letter test, the character class `[A-Za-z]`. -/
def isAsciiLetter (c : Char) : Bool :=
  (decide (65 ≤ c.toNat) && decide (c.toNat ≤ 90)) ||
  (decide (97 ≤ c.toNat) && decide (c.toNat ≤ 122))

/-- Truth value of `re.match(r'^[A-Za-z]{3}$', s)`.  Python's `$`
matches at the end of the string or just before a newline at the end of
the string, so the accepted language is three ASCII letters optionally
followed by a single trailing newline. -/
def matchCityCode (s : String) : Bool :=
  match s.data with
  | [a, b, c] => isAsciiLetter a && isAsciiLetter b && isAsciiLetter c
  | [a, b, c, d] => isAsciiLetter a && isAsciiLetter b && isAsciiLetter c && d == '\n'
  | _ => false

/-- Message of the first `raise ToolError` in `get_city_delay`. -/
def invalidCityCodeMsg : String :=
  "Invalid city code, use the appropriate tool to look up and return the correct city code for the given city name."

/-- Message of the second `raise ToolError` in `get_city_delay`. -/
def sameCityMsg : String :=
  "You have provided one city. Please specify another city to measure network latency between them."

/-- Lines 64-67 of `get_city_delay`: the two pre-network checks, in
source order.  `some m` means `ToolError(m)` is raised before any HTTP
request; `none` means control reaches the `try` block. -/
def validate_delay_query (from_city to_city : String) : Option String :=
  if !(matchCityCode from_city) || !(matchCityCode to_city) then
    some invalidCityCodeMsg
  else if from_city == to_city then
    some sameCityMsg
  else
    none

/-- Line 70: the outgoing request URL, interpolating the inputs verbatim. -/
def city_delay_url (from_city to_city : String) : String :=
  "http://localhost:8000/looking-glass/city/delay?from_city=" ++ from_city
    ++ "&to_city=" ++ to_city

/-! ### `get_city_delay` response handling (lines 69-101) -/

/-- Result model of `get_city_delay` (pydantic `CityDelayModel`). -/
structure CityDelayModel where
  from_city : String
  to_city : String
  private_line_delay : String
  public_network_delay : String
deriving DecidableEq, Repr

/-- Messages of the `except httpx.HTTPStatusError` branch of
`get_city_delay` (lines 85-92). -/
def delay404Msg (from_city to_city : String) : String :=
  "Route not found between \x27" ++ from_city ++ "\x27 and \x27" ++ to_city ++ "\x27."

def delay400Msg (from_city to_city : String) : String :=
  "Invalid request. Please verify city codes \x27" ++ from_city ++ "\x27 and \x27"
    ++ to_city ++ "\x27."

def delayHttpMsg (code : Nat) (from_city to_city : String) : String :=
  "HTTP error " ++ toString code ++ ": Failed to query latency between \x27"
    ++ from_city ++ "\x27 and \x27" ++ to_city ++ "\x27."

def delayConnMsg (detail : String) : String :=
  "Connection error: Could not reach latency service. Details: " ++ detail

/-- Lines 77-82 with the surrounding handlers: the four dict indexings
`res_json["from_city"]`, `res_json["to_city"]`,
`res_json["private_line_delay"]`, `res_json["public_network_delay"]`
(evaluated left to right; a missing key raises `KeyError`, caught only
by the catch-all `except Exception`), then pydantic validation of
`CityDelayModel` (all four fields are `str`; a non-string value raises
`ValidationError`, caught by the `except ValidationError` branch).
Indexing a non-dict payload with a string key raises `TypeError`,
again reaching the catch-all. -/
def normalize_city_delay (p : JSON) : Except String CityDelayModel :=
  match p with
  | .obj kvs =>
    match kvs.lookup "from_city" with
    | none => .error (unexpectedMsg (keyErrorStr "from_city"))
    | some v1 =>
      match kvs.lookup "to_city" with
      | none => .error (unexpectedMsg (keyErrorStr "to_city"))
      | some v2 =>
        match kvs.lookup "private_line_delay" with
        | none => .error (unexpectedMsg (keyErrorStr "private_line_delay"))
        | some v3 =>
          match kvs.lookup "public_network_delay" with
          | none => .error (unexpectedMsg (keyErrorStr "public_network_delay"))
          | some v4 =>
            match v1, v2, v3, v4 with
            | .str a, .str b, .str c, .str d => .ok ⟨a, b, c, d⟩
            | _, _, _, _ => .error (shapeMsg pydanticDetail)
  | _ => .error (unexpectedMsg typeErrorDetail)

/-- The whole of `get_city_delay` (lines 31-101) as a function of the
two inputs and the backend outcome. -/
def get_city_delay (from_city to_city : String) (backend : HTTPOutcome) :
    Except String CityDelayModel :=
  match validate_delay_query from_city to_city with
  | some m => .error m
  | none =>
    match backend with
    | .success p => normalize_city_delay p
    | .httpError code =>
      if code == 404 then .error (delay404Msg from_city to_city)
      else if code == 400 then .error (delay400Msg from_city to_city)
      else .error (delayHttpMsg code from_city to_city)
    | .transportError d => .error (delayConnMsg d)

/-! ### List-of-entries tools: `get_eyeball_coverage` and `execute_zga_test` -/

/-- Result entry of `get_eyeball_coverage` (pydantic
`EyeballCoverageResult`; `delay` is a `float`, embedded as `Int`). -/
structure EyeballCoverageResult where
  agent_city_code : String
  eye_city_name : String
  eye_country_name : String
  org_name : String
  asn : String
  delay : Int
deriving DecidableEq, Repr

/-- Result entry of `execute_zga_test` (pydantic `ZGATestResult`). -/
structure ZGATestResult where
  via_public_internet_delay : String
  via_zga_delay : String
  target : String
  improvement_percentage : String
deriving DecidableEq, Repr

/-- Outcome of constructing a pydantic model from one sequence element
`Model(**item)`: success, a `TypeError` (item is not a mapping, reaches
the catch-all handler), or a `pydantic.ValidationError` (missing or
ill-typed field, reaches the `except ValidationError` handler). -/
inductive ItemParse (α : Type) where
  | ok (a : α) : ItemParse α
  | typeErr : ItemParse α
  | valErr : ItemParse α
deriving DecidableEq, Repr

/-- Python iteration `for item in res_json` over a parsed JSON value:
a list yields its elements, a dict yields its keys, a string yields its
one-character substrings; `None` and numbers are not iterable
(`TypeError`, modelled as `none`). -/
def iterateJSON : JSON → Option (List JSON)
  | .arr items => some items
  | .obj kvs => some (kvs.map fun kv => JSON.str kv.1)
  | .str s => some (s.data.map fun c => JSON.str (String.singleton c))
  | .null => none
  | .num _ => none

/-- `EyeballCoverageResult(**item)`: `item` must be a mapping with the
five string fields and a numeric `delay`; extra keys are ignored
(pydantic default), a missing or ill-typed field raises
`ValidationError`, a non-mapping raises `TypeError`. -/
def parse_eyeball_item : JSON → ItemParse EyeballCoverageResult
  | .obj kvs =>
    match kvs.lookup "agent_city_code", kvs.lookup "eye_city_name",
        kvs.lookup "eye_country_name", kvs.lookup "org_name",
        kvs.lookup "asn", kvs.lookup "delay" with
    | some (.str a), some (.str b), some (.str c), some (.str d),
        some (.str e), some (.num f) => .ok ⟨a, b, c, d, e, f⟩
    | _, _, _, _, _, _ => .valErr
  | _ => .typeErr

/-- `ZGATestResult(**item)`: a mapping with the four string fields. -/
def parse_zga_item : JSON → ItemParse ZGATestResult
  | .obj kvs =>
    match kvs.lookup "via_public_internet_delay", kvs.lookup "via_zga_delay",
        kvs.lookup "target", kvs.lookup "improvement_percentage" with
    | some (.str a), some (.str b), some (.str c), some (.str d) => .ok ⟨a, b, c, d⟩
    | _, _, _, _ => .valErr
  | _ => .typeErr

/-- The list comprehension `[Model(**item) for item in res_json]`:
elements are converted left to right and the first raised exception
propagates. -/
def collectItems {α : Type} (parse : JSON → ItemParse α) :
    List JSON → ItemParse (List α)
  | [] => .ok []
  | j :: rest =>
    match parse j with
    | .ok a =>
      match collectItems parse rest with
      | .ok tail => .ok (a :: tail)
      | .typeErr => .typeErr
      | .valErr => .valErr
    | .typeErr => .typeErr
    | .valErr => .valErr

/-- Shared 2xx-payload handling of the two sequence-returning tools:
iterate the payload, build one model per element, and classify a raised
`TypeError` via the catch-all handler and a raised `ValidationError`
via the `except ValidationError` handler. -/
def normalize_entry_list {α : Type} (parse : JSON → ItemParse α) (p : JSON) :
    Except String (List α) :=
  match iterateJSON p with
  | none => .error (unexpectedMsg typeErrorDetail)
  | some items =>
    match collectItems parse items with
    | .ok rs => .ok rs
    | .typeErr => .error (unexpectedMsg typeErrorDetail)
    | .valErr => .error (shapeMsg pydanticDetail)

/-- Messages of the status-error branch of `get_eyeball_coverage`
(lines 165-172). -/
def eyeball404Msg (city : String) : String :=
  "No eyeball coverage data found for city \x27" ++ city ++ "\x27."

def eyeball400Msg (city : String) : String :=
  "Invalid request. Please verify city code \x27" ++ city ++ "\x27."

def eyeballHttpMsg (code : Nat) (city : String) : String :=
  "HTTP error " ++ toString code ++ ": Failed to query eyeball coverage for \x27"
    ++ city ++ "\x27."

def eyeballConnMsg (detail : String) : String :=
  "Connection error: Could not reach eyeball coverage service. Details: " ++ detail

/-- `get_eyeball_coverage` (lines 127-181): no input validation at all;
the city string is interpolated into the URL and the outcome is decided
entirely by the backend response. -/
def get_eyeball_coverage (city : String) (backend : HTTPOutcome) :
    Except String (List EyeballCoverageResult) :=
  match backend with
  | .success p => normalize_entry_list parse_eyeball_item p
  | .httpError code =>
    if code == 404 then .error (eyeball404Msg city)
    else if code == 400 then .error (eyeball400Msg city)
    else .error (eyeballHttpMsg code city)
  | .transportError d => .error (eyeballConnMsg d)

/-- Line 155: the outgoing eyeball-coverage request URL. -/
def eyeball_url (city : String) : String :=
  "http://localhost:8000/looking-glass/eyeball/coverage?city=" ++ city

/-- Messages of the status-error branch of `execute_zga_test`
(lines 239-246); note none of them mentions the queried city. -/
def zga404Msg : String := "Route not found."

def zga400Msg : String := "Invalid request."

def zgaHttpMsg (code : Nat) : String :=
  "HTTP error " ++ toString code ++ ": Failed to query latency."

def zgaConnMsg (detail : String) : String :=
  "Connection error: Could not reach latency service. Details: " ++ detail

/-- `execute_zga_test` (lines 202-255): no input validation; same
structure as `get_eyeball_coverage` with the zga messages. -/
def execute_zga_test (city : String) (backend : HTTPOutcome) :
    Except String (List ZGATestResult) :=
  match backend with
  | .success p => normalize_entry_list parse_zga_item p
  | .httpError code =>
    if code == 404 then .error zga404Msg
    else if code == 400 then .error zga400Msg
    else .error (zgaHttpMsg code)
  | .transportError d => .error (zgaConnMsg d)

/-! ### `execute_router_explore` (lines 272-316) -/

/-- The `Literal['ping', 'mtr', 'bgp']` explore type (enforced on the
tool argument by the surrounding framework before the body runs). -/
inductive ExploreType where
  | ping : ExploreType
  | mtr : ExploreType
  | bgp : ExploreType
deriving DecidableEq, Repr

/-- The string a `Literal` value must equal. -/
def exploreTypeStr : ExploreType → String
  | .ping => "ping"
  | .mtr => "mtr"
  | .bgp => "bgp"

/-- Result model of `execute_router_explore`. -/
structure RouterExploreResult where
  explore_type : ExploreType
  result : String
deriving DecidableEq, Repr

/-- `RouterExploreResult(**res_json)`: the payload must be a mapping
whose `explore_type` is one of the three literals and whose `result`
is a string; any failure (missing key, ill-typed value, non-mapping
payload such as `null`) raises an exception that the function's only
handler, `except Exception`, turns into the Unexpected message, since
`execute_router_explore` has no status-code, transport or
`ValidationError` branches. -/
def parse_router_payload (p : JSON) : Except String RouterExploreResult :=
  match p with
  | .obj kvs =>
    match kvs.lookup "explore_type", kvs.lookup "result" with
    | some (.str et), some (.str r) =>
      if et == "ping" then .ok ⟨.ping, r⟩
      else if et == "mtr" then .ok ⟨.mtr, r⟩
      else if et == "bgp" then .ok ⟨.bgp, r⟩
      else .error (unexpectedMsg pydanticDetail)
    | _, _ => .error (unexpectedMsg pydanticDetail)
  | _ => .error (unexpectedMsg typeErrorDetail)

/-- `execute_router_explore`: its whole body sits in one `try` whose
only handler is `except Exception` (line 315), so every failure —
non-2xx status, transport failure, `null` payload, bad shape — becomes
the Unexpected message; there is no not-found handling at all. -/
def execute_router_explore (et : ExploreType) (datacenter target_ip_or_domain : String)
    (backend : HTTPOutcome) : Except String RouterExploreResult :=
  match backend with
  | .success p => parse_router_payload p
  | .httpError code => .error (unexpectedMsg (httpStatusDetail code))
  | .transportError d => .error (unexpectedMsg d)

/-! ### `get_zenlayer_internal_city_code` (lines 340-382) -/

/-- Result model of `get_zenlayer_internal_city_code` (pydantic
`CityResult`). -/
structure CityResult where
  city_code_on_zenlayer : String
  city_name : String
  city_name_en : String
  country_name : String
  country_name_en : String
deriving DecidableEq, Repr

/-- Message of the `raise ToolError` at line 371 for a falsy payload. -/
def cityNotFoundMsg : String :=
  "Sorry, the city you queried could not be found. Please check if the city name is correct, or the region may not be covered by a Zenlayer POP node."

/-- `get_zenlayer_internal_city_code`: `raise_for_status` failures and
transport failures reach the catch-all (there are no status-code
branches; only `except ToolError` re-raising the not-found error and
`except Exception`).  On 2xx, `if not res_json:` raises the not-found
`ToolError`; otherwise the five keys are indexed (a missing key raises
`KeyError` → catch-all) and `CityResult` is validated (`ValidationError`
→ catch-all, as there is no `except ValidationError` branch here). -/
def get_zenlayer_internal_city_code (city_name_en : String) (backend : HTTPOutcome) :
    Except String CityResult :=
  match backend with
  | .success p =>
    if falsy p then .error cityNotFoundMsg
    else
      match p with
      | .obj kvs =>
        match kvs.lookup "city_code" with
        | none => .error (unexpectedMsg (keyErrorStr "city_code"))
        | some v1 =>
          match kvs.lookup "city_name" with
          | none => .error (unexpectedMsg (keyErrorStr "city_name"))
          | some v2 =>
            match kvs.lookup "city_name_en" with
            | none => .error (unexpectedMsg (keyErrorStr "city_name_en"))
            | some v3 =>
              match kvs.lookup "country_name" with
              | none => .error (unexpectedMsg (keyErrorStr "country_name"))
              | some v4 =>
                match kvs.lookup "country_name_en" with
                | none => .error (unexpectedMsg (keyErrorStr "country_name_en"))
                | some v5 =>
                  match v1, v2, v3, v4, v5 with
                  | .str a, .str b, .str c, .str d, .str e => .ok ⟨a, b, c, d, e⟩
                  | _, _, _, _, _ => .error (unexpectedMsg pydanticDetail)
      | _ => .error (unexpectedMsg typeErrorDetail)
  | .httpError code => .error (unexpectedMsg (httpStatusDetail code))
  | .transportError d => .error (unexpectedMsg d)

/-! ### Single-network delay dispatch, modelled from the spec

`src/` contains only the unified dual-network `get_city_delay`
(path `/city/delay`); the single-network variant of the delay query is
absent from `src/` (the mock backend does serve `/sdn/city/delay` and
the spec describes the dispatcher), so the definitions below are
modelled from the spec rather than translated from source. -/

/-- Modelled from the spec: the optional requested granularity of a
delay query, `network_type? : enum(private_line, public_network)`,
absent meaning both networks. -/
inductive NetworkType where
  | private_line : NetworkType
  | public_network : NetworkType
deriving DecidableEq, Repr

/-- Modelled from the spec: endpoint-path selection for delay queries —
a dual-network query (no `network_type`) uses the unified `/city/delay`
path, a single-network query uses the type-specific path. -/
def delay_endpoint_path : Option NetworkType → String
  | none => "/city/delay"
  | some .private_line => "/sdn/city/delay"
  | some .public_network => "/public/city/delay"

/-- Modelled from the spec: the single-network delay result
`{from, to, network_type, delay}`. -/
structure SingleDelayResult where
  from_city : String
  to_city : String
  network_type : NetworkType
  delay : String
deriving DecidableEq, Repr

/-- Modelled from the spec: message of the NotFound-flavored failure
for an empty single-network payload. -/
def singleDelayNotFoundMsg (from_city to_city : String) : String :=
  "Route not found between \x27" ++ from_city ++ "\x27 and \x27" ++ to_city ++ "\x27."

/-- Modelled from the spec: single-network delay normalization — an
empty/falsy payload means "no route" (NotFound-flavored); otherwise the
key `delay` is required, `from_city`/`to_city` fall back to the
originally supplied inputs when absent, and `network_type` is injected
from the request, never read from the payload. -/
def normalize_single_delay (req_from req_to : String) (nt : NetworkType)
    (p : JSON) : Except String SingleDelayResult :=
  if falsy p then .error (singleDelayNotFoundMsg req_from req_to)
  else
    match p with
    | .obj kvs =>
      match kvs.lookup "delay" with
      | some (.str d) =>
        let f := match kvs.lookup "from_city" with
          | some (.str s) => s
          | _ => req_from
        let t := match kvs.lookup "to_city" with
          | some (.str s) => s
          | _ => req_to
        .ok ⟨f, t, nt, d⟩
      | _ => .error (shapeMsg pydanticDetail)
    | _ => .error (unexpectedMsg typeErrorDetail)

/-- Modelled from the spec: the single-network delay query end to end —
validate, fetch the type-specific path, normalize. -/
def get_city_delay_single (from_city to_city : String) (nt : NetworkType)
    (backend : HTTPOutcome) : Except String SingleDelayResult :=
  match validate_delay_query from_city to_city with
  | some m => .error m
  | none =>
    match backend with
    | .success p => normalize_single_delay from_city to_city nt p
    | .httpError code =>
      if code == 404 then .error (delay404Msg from_city to_city)
      else if code == 400 then .error (delay400Msg from_city to_city)
      else .error (delayHttpMsg code from_city to_city)
    | .transportError d => .error (delayConnMsg d)

/-! ### Helper lemmas -/

/-- Two appends whose left parts start with different characters are
different strings. -/
theorem ne_append_of_head_ne (s1 s2 x y : String) (c1 c2 : Char)
    (h1 : s1.data.head? = some c1) (h2 : s2.data.head? = some c2) (hc : c1 ≠ c2) :
    s1 ++ x ≠ s2 ++ y := by
  intro h
  apply hc
  have hd : (s1 ++ x).data = (s2 ++ y).data := by rw [h]
  rw [String.data_append, String.data_append] at hd
  have hh : (s1.data ++ x.data).head? = (s2.data ++ y.data).head? := by rw [hd]
  cases hs1 : s1.data with
  | nil => rw [hs1] at h1; simp at h1
  | cons a u =>
    cases hs2 : s2.data with
    | nil => rw [hs2] at h2; simp at h2
    | cons b v =>
      rw [hs1] at h1
      rw [hs2] at h2
      rw [hs1, hs2] at hh
      simp only [List.cons_append, List.head?_cons, Option.some.injEq] at h1 h2 hh
      rw [← h1, ← h2]
      exact hh

/-- The catch-all message family and the `ValidationError` message
family are disjoint (they start with different fixed heads). -/
theorem unexpected_ne_shape (d d' : String) : unexpectedMsg d ≠ shapeMsg d' :=
  ne_append_of_head_ne _ _ _ _ 'U' 'I' rfl rfl (by decide)

/-- If every element of a list parses, the comprehension succeeds and
maps the list item-wise. -/
theorem collectItems_ok_of_forall {α : Type} (parse : JSON → ItemParse α) :
    ∀ (items : List JSON), (∀ j ∈ items, ∃ a, parse j = .ok a) →
      ∃ rs, collectItems parse items = .ok rs ∧ rs.length = items.length ∧
        ∀ (i : Nat) (hi : i < items.length) (hr : i < rs.length),
          parse (items.get ⟨i, hi⟩) = .ok (rs.get ⟨i, hr⟩) := by
  intro items
  induction items with
  | nil =>
    intro _
    refine ⟨[], rfl, rfl, ?_⟩
    intro i hi hr
    exact absurd hi (by simp)
  | cons j rest ih =>
    intro h
    obtain ⟨a, ha⟩ := h j (List.mem_cons_self j rest)
    obtain ⟨rs, hrs, hlen, hpt⟩ := ih (fun j' hj' => h j' (List.mem_cons_of_mem _ hj'))
    refine ⟨a :: rs, ?_, ?_, ?_⟩
    · unfold collectItems
      rw [ha, hrs]
    · simp [hlen]
    · intro i hi hr
      cases i with
      | zero => simpa using ha
      | succ n =>
        simpa using hpt n (by simpa using hi) (by simpa using hr)

/-! ### Claim theorems -/

/-- C2: the delay-query format check was meant to accept exactly the
3-ASCII-letter strings, but `re.match(r'^[A-Za-z]{3}$', ...)` also
accepts three letters followed by a trailing newline, because Python's
`$` matches just before a newline at the end of the string.  Evaluating
the embedded code at the failing input: `from_city = "ABC\n"` (four
characters, one of them a non-letter) passes validation and the
backend call proceeds and can succeed. -/
theorem c2_trailing_newline_accepted :
    "ABC\n".length = 4 ∧
    validate_delay_query "ABC\n" "DEF" = none ∧
    get_city_delay "ABC\n" "DEF" (.success (.obj [("from_city", .str "ABC"),
      ("to_city", .str "DEF"), ("private_line_delay", .str "120ms"),
      ("public_network_delay", .str "150ms")]))
      = .ok ⟨"ABC", "DEF", "120ms", "150ms"⟩ :=
  ⟨rfl, rfl, rfl⟩

/-- C3 counterexample: the claim says codes equal up to case fail
validation with the same-city error and that the outgoing request
carries uppercase-folded codes; in the code `"HKG"` vs `"hkg"` passes
validation (the comparison is exact string equality) and the URL
carries `"hkg"` verbatim. -/
theorem c3_counterexample_case_not_folded :
    validate_delay_query "HKG" "hkg" = none ∧
    city_delay_url "HKG" "hkg"
      = "http://localhost:8000/looking-glass/city/delay?from_city=HKG&to_city=hkg" ∧
    city_delay_url "HKG" "hkg" ≠ city_delay_url "HKG" "HKG" :=
  ⟨rfl, rfl, by decide⟩

/-- C3 amended: no case folding is performed anywhere in the delay
query: the same-city comparison is exact (case-sensitive) string
equality, so two 3-letter codes that differ in case pass validation,
and the outgoing request URL interpolates both codes exactly as
supplied. -/
theorem c3_no_case_folding :
    (∀ f t : String, matchCityCode f = true → matchCityCode t = true → f ≠ t →
      validate_delay_query f t = none) ∧
    (∀ f t : String, city_delay_url f t =
      "http://localhost:8000/looking-glass/city/delay?from_city=" ++ f
        ++ "&to_city=" ++ t) := by
  constructor
  · intro f t hf ht hne
    simp [validate_delay_query, hf, ht, hne]
  · intro f t
    rfl

/-- C3 witness: the amended statement at `"HKG"`, `"hkg"`. -/
theorem c3_no_case_folding_witness :
    validate_delay_query "HKG" "hkg" = none ∧
    city_delay_url "HKG" "hkg" =
      "http://localhost:8000/looking-glass/city/delay?from_city=" ++ "HKG"
        ++ "&to_city=" ++ "hkg" :=
  ⟨c3_no_case_folding.1 "HKG" "hkg" (by decide) (by decide) (by decide),
   c3_no_case_folding.2 "HKG" "hkg"⟩

/-- C9: dual-network normalization is the identity on the four field
values: whenever the payload carries string values under the keys
`from_city`, `to_city`, `private_line_delay`, `public_network_delay`,
the resulting `CityDelayModel` holds those exact strings. -/
theorem c9_dual_delay_roundtrip :
    ∀ (kvs : List (String × JSON)) (s1 s2 s3 s4 : String),
      kvs.lookup "from_city" = some (.str s1) →
      kvs.lookup "to_city" = some (.str s2) →
      kvs.lookup "private_line_delay" = some (.str s3) →
      kvs.lookup "public_network_delay" = some (.str s4) →
      normalize_city_delay (.obj kvs) = .ok ⟨s1, s2, s3, s4⟩ := by
  intro kvs s1 s2 s3 s4 h1 h2 h3 h4
  unfold normalize_city_delay
  simp only [h1, h2, h3, h4]

/-- C9 witness: the spec's example payload round-trips unchanged. -/
theorem c9_dual_delay_roundtrip_witness :
    normalize_city_delay (.obj [("from_city", .str "HKG"), ("to_city", .str "NYC"),
      ("private_line_delay", .str "120ms"),
      ("public_network_delay", .str "no data provide")])
      = .ok ⟨"HKG", "NYC", "120ms", "no data provide"⟩ :=
  c9_dual_delay_roundtrip _ "HKG" "NYC" "120ms" "no data provide" rfl rfl rfl rfl

/-- C10 counterexample: the claim says every pair of equal inputs that
are not three letters gets the format error; `"ABC\n"` (four
characters) supplied twice instead raises the same-city error, because
the format check accepts a trailing newline. -/
theorem c10_counterexample_newline_pair :
    validate_delay_query "ABC\n" "ABC\n" = some sameCityMsg ∧
    sameCityMsg ≠ invalidCityCodeMsg ∧
    "ABC\n".length ≠ 3 :=
  ⟨rfl, by decide, by decide⟩

/-- C10 amended: the format check precedes the same-city check, with
"not three letters" read as "rejected by the code's format check"
(which also accepts three letters plus a trailing newline): whenever
either input fails the format check the format error is raised — in
particular for any pair of equal rejected inputs — and the same-city
error is only ever raised when both inputs pass the format check and
are equal. -/
theorem c10_format_check_precedence :
    (∀ f t : String, (matchCityCode f = false ∨ matchCityCode t = false) →
      validate_delay_query f t = some invalidCityCodeMsg) ∧
    (∀ f t : String, validate_delay_query f t = some sameCityMsg →
      matchCityCode f = true ∧ matchCityCode t = true ∧ f = t) := by
  constructor
  · intro f t h
    rcases h with h | h <;> simp [validate_delay_query, h]
  · intro f t h
    unfold validate_delay_query at h
    split at h
    · exact absurd h (by decide)
    · next hcond =>
      have hft : matchCityCode f = true ∧ matchCityCode t = true := by
        constructor <;> by_contra hb <;>
          simp [Bool.not_eq_true] at hb <;> simp [hb] at hcond
      split at h
      · next heq => exact ⟨hft.1, hft.2, eq_of_beq heq⟩
      · exact Option.noConfusion h

/-- C10 witness: the amended statement at concrete inputs: `"ab"`
supplied twice gets the format error, and a raised same-city error at
`("HKG", "HKG")` implies both codes pass the format check. -/
theorem c10_format_check_precedence_witness :
    validate_delay_query "ab" "ab" = some invalidCityCodeMsg ∧
    (matchCityCode "HKG" = true ∧ matchCityCode "HKG" = true ∧ "HKG" = "HKG") :=
  ⟨c10_format_check_precedence.1 "ab" "ab" (Or.inl (by decide)),
   c10_format_check_precedence.2 "HKG" "HKG" rfl⟩

/-- C4 counterexample: the claim says a dual-delay payload missing a
required key produces the ShapeError kind; in the code the dict
indexing `res_json["from_city"]` raises `KeyError` before pydantic runs,
and `KeyError` is caught by the catch-all, so the caller receives the
Unexpected message, which is not in the ShapeError message family. -/
theorem c4_counterexample_missing_key_unexpected :
    get_city_delay "HKG" "NYC" (.success (.obj [("to_city", .str "NYC"),
      ("private_line_delay", .str "120ms"), ("public_network_delay", .str "150ms")]))
      = .error (unexpectedMsg (keyErrorStr "from_city")) ∧
    isUnexpectedClass (unexpectedMsg (keyErrorStr "from_city")) ∧
    ¬ isShapeClass (unexpectedMsg (keyErrorStr "from_city")) := by
  refine ⟨rfl, ⟨_, rfl⟩, ?_⟩
  rintro ⟨d, hd⟩
  exact unexpected_ne_shape _ _ hd

/-- C4 amended: a 2xx dual-delay payload missing any of the four
required keys makes the caller receive the Unexpected catch-all error
(from the underlying `KeyError`), never the ShapeError kind; the
ShapeError kind is reserved for payloads whose keys are all present
but whose values fail pydantic validation. -/
theorem c4_missing_key_is_unexpected :
    ∀ (kvs : List (String × JSON)) (f t : String),
      validate_delay_query f t = none →
      (kvs.lookup "from_city" = none ∨ kvs.lookup "to_city" = none ∨
        kvs.lookup "private_line_delay" = none ∨
        kvs.lookup "public_network_delay" = none) →
      ∃ d, get_city_delay f t (.success (.obj kvs)) = .error (unexpectedMsg d) ∧
        ¬ isShapeClass (unexpectedMsg d) := by
  intro kvs f t hv hmiss
  have hns : ∀ d : String, ¬ isShapeClass (unexpectedMsg d) := by
    rintro d ⟨d', hd⟩
    exact unexpected_ne_shape d d' hd
  have hget : ∀ r, normalize_city_delay (.obj kvs) = r →
      get_city_delay f t (.success (.obj kvs)) = r := by
    intro r hr
    unfold get_city_delay
    rw [hv]
    exact hr
  rcases hmiss with h | h | h | h
  · refine ⟨keyErrorStr "from_city", hget _ ?_, hns _⟩
    simp only [normalize_city_delay, h]
  · cases h1 : kvs.lookup "from_city" with
    | none =>
      refine ⟨keyErrorStr "from_city", hget _ ?_, hns _⟩
      simp only [normalize_city_delay, h1]
    | some v1 =>
      refine ⟨keyErrorStr "to_city", hget _ ?_, hns _⟩
      simp only [normalize_city_delay, h1, h]
  · cases h1 : kvs.lookup "from_city" with
    | none =>
      refine ⟨keyErrorStr "from_city", hget _ ?_, hns _⟩
      simp only [normalize_city_delay, h1]
    | some v1 =>
      cases h2 : kvs.lookup "to_city" with
      | none =>
        refine ⟨keyErrorStr "to_city", hget _ ?_, hns _⟩
        simp only [normalize_city_delay, h1, h2]
      | some v2 =>
        refine ⟨keyErrorStr "private_line_delay", hget _ ?_, hns _⟩
        simp only [normalize_city_delay, h1, h2, h]
  · cases h1 : kvs.lookup "from_city" with
    | none =>
      refine ⟨keyErrorStr "from_city", hget _ ?_, hns _⟩
      simp only [normalize_city_delay, h1]
    | some v1 =>
      cases h2 : kvs.lookup "to_city" with
      | none =>
        refine ⟨keyErrorStr "to_city", hget _ ?_, hns _⟩
        simp only [normalize_city_delay, h1, h2]
      | some v2 =>
        cases h3 : kvs.lookup "private_line_delay" with
        | none =>
          refine ⟨keyErrorStr "private_line_delay", hget _ ?_, hns _⟩
          simp only [normalize_city_delay, h1, h2, h3]
        | some v3 =>
          refine ⟨keyErrorStr "public_network_delay", hget _ ?_, hns _⟩
          simp only [normalize_city_delay, h1, h2, h3, h]

/-- C4 witness: the amended statement for a payload missing
`public_network_delay`. -/
theorem c4_missing_key_is_unexpected_witness :
    ∃ d, get_city_delay "HKG" "NYC" (.success (.obj [("from_city", .str "HKG"),
      ("to_city", .str "NYC"), ("private_line_delay", .str "120ms")]))
      = .error (unexpectedMsg d) ∧ ¬ isShapeClass (unexpectedMsg d) :=
  c4_missing_key_is_unexpected _ "HKG" "NYC" rfl (Or.inr (Or.inr (Or.inr rfl)))

/-- C5 counterexample: the claim says a null 2xx payload on router
diagnostics is classified NotFound, never Unexpected; in the code
`RouterExploreResult(**None)` raises `TypeError` and the function's
only handler is the catch-all, so the caller receives the Unexpected
message. -/
theorem c5_counterexample_router_null_unexpected :
    execute_router_explore .ping "s1001" "8.8.8.8" (.success .null)
      = .error (unexpectedMsg typeErrorDetail) ∧
    isUnexpectedClass (unexpectedMsg typeErrorDetail) ∧
    unexpectedMsg typeErrorDetail ≠ cityNotFoundMsg :=
  ⟨rfl, ⟨_, rfl⟩, by decide⟩

/-- C5 amended: only city resolution normalizes a falsy (null/empty)
2xx payload into the NotFound failure whose message asks the caller to
re-check the city name; router diagnostics instead turns a null payload
into the Unexpected catch-all error. -/
theorem c5_null_payload_classification :
    (∀ (p : JSON) (name : String), falsy p = true →
      get_zenlayer_internal_city_code name (.success p) = .error cityNotFoundMsg) ∧
    (∀ (et : ExploreType) (dc tgt : String),
      execute_router_explore et dc tgt (.success .null)
        = .error (unexpectedMsg typeErrorDetail)) ∧
    unexpectedMsg typeErrorDetail ≠ cityNotFoundMsg := by
  refine ⟨?_, ?_, by decide⟩
  · intro p name hf
    simp only [get_zenlayer_internal_city_code, hf, if_true]
  · intro et dc tgt
    rfl

/-- C5 witness: the amended statement at a null payload. -/
theorem c5_null_payload_classification_witness :
    get_zenlayer_internal_city_code "Atlantis" (.success .null)
      = .error cityNotFoundMsg ∧
    execute_router_explore .mtr "s1002" "example.com" (.success .null)
      = .error (unexpectedMsg typeErrorDetail) :=
  ⟨c5_null_payload_classification.1 .null "Atlantis" rfl,
   c5_null_payload_classification.2.1 .mtr "s1002" "example.com"⟩

/-- C6 counterexample: the claim says the free-form query kinds reject
the empty string with InvalidInput before any network call; in the code
there is no emptiness check: with an empty input each tool still issues
the request, and its outcome is decided by the backend (here a
successful empty-input call is exhibited for each kind, plus a
backend-dependent second outcome for the first kind). -/
theorem c6_counterexample_empty_accepted :
    get_eyeball_coverage "" (.success (.arr [])) = .ok [] ∧
    get_eyeball_coverage "" (.httpError 404) = .error (eyeball404Msg "") ∧
    execute_zga_test "" (.success (.arr [])) = .ok [] ∧
    execute_router_explore .ping "" "" (.success (.obj [("explore_type", .str "ping"),
      ("result", .str "PING ok")])) = .ok ⟨.ping, "PING ok"⟩ ∧
    get_zenlayer_internal_city_code "" (.success .null) = .error cityNotFoundMsg :=
  ⟨rfl, rfl, rfl, rfl, rfl⟩

/-- C6 amended: none of the free-form query kinds (eyeball city, zga
city, router datacenter/target, city-name lookup) validates its input
at all — not even non-emptiness: every string, the empty string
included, is passed through to the backend and the outcome is
determined solely by the backend response. -/
theorem c6_no_emptiness_validation :
    ∀ s : String,
      get_eyeball_coverage s (.success (.arr [])) = .ok [] ∧
      execute_zga_test s (.success (.arr [])) = .ok [] ∧
      get_zenlayer_internal_city_code s (.success .null) = .error cityNotFoundMsg ∧
      ∀ (et : ExploreType) (tgt r : String),
        execute_router_explore et s tgt (.success (.obj
          [("explore_type", .str (exploreTypeStr et)), ("result", .str r)]))
          = .ok ⟨et, r⟩ := by
  intro s
  refine ⟨rfl, rfl, rfl, ?_⟩
  intro et tgt r
  cases et <;> rfl

/-- C6 witness: the amended statement at the empty string. -/
theorem c6_no_emptiness_validation_witness :
    get_zenlayer_internal_city_code "" (.success .null) = .error cityNotFoundMsg ∧
    execute_router_explore .bgp "" "x.example" (.success (.obj
      [("explore_type", .str "bgp"), ("result", .str "BGP table")]))
      = .ok ⟨.bgp, "BGP table"⟩ :=
  ⟨(c6_no_emptiness_validation "").2.2.1,
   (c6_no_emptiness_validation "").2.2.2 .bgp "x.example" "BGP table"⟩

/-- C7 counterexample: the claim says every failure message names the
offending inputs and a zga 404 yields a NotFound referencing the
supplied city; the code's zga 404 message is the fixed string
`"Route not found."`, which does not contain the city. -/
theorem c7_counterexample_zga_404_no_city :
    execute_zga_test "HKG" (.httpError 404) = .error zga404Msg ∧
    zga404Msg = "Route not found." ∧
    ¬ ("HKG".data <:+: zga404Msg.data) :=
  ⟨rfl, rfl, by decide⟩

/-- C7 amended: a backend 404 on a delay query yields the not-found
error interpolating both supplied city codes verbatim (each code occurs
in the message), while a 404 on a zga query yields the fixed message
`"Route not found."`, which references no input value. -/
theorem c7_http404_messages :
    ∀ f t : String, validate_delay_query f t = none →
      (get_city_delay f t (.httpError 404)
        = .error ("Route not found between \x27" ++ f ++ "\x27 and \x27"
            ++ t ++ "\x27.") ∧
       f.data <:+: (delay404Msg f t).data ∧
       t.data <:+: (delay404Msg f t).data) ∧
      ∀ c : String, execute_zga_test c (.httpError 404) = .error "Route not found." := by
  intro f t hv
  refine ⟨⟨?_, ?_, ?_⟩, fun c => rfl⟩
  · unfold get_city_delay
    rw [hv]
    rfl
  · refine ⟨"Route not found between \x27".data,
      ("\x27 and \x27" ++ t ++ "\x27.").data, ?_⟩
    simp [delay404Msg, String.data_append, List.append_assoc]
  · refine ⟨("Route not found between \x27" ++ f ++ "\x27 and \x27").data,
      "\x27.".data, ?_⟩
    simp [delay404Msg, String.data_append, List.append_assoc]

/-- C7 witness: the amended statement at `("HKG", "NYC")` and zga city
`"SZX"`. -/
theorem c7_http404_messages_witness :
    get_city_delay "HKG" "NYC" (.httpError 404)
      = .error ("Route not found between \x27" ++ "HKG" ++ "\x27 and \x27"
          ++ "NYC" ++ "\x27.") ∧
    execute_zga_test "SZX" (.httpError 404) = .error "Route not found." :=
  ⟨(c7_http404_messages "HKG" "NYC" rfl).1.1,
   (c7_http404_messages "HKG" "NYC" rfl).2 "SZX"⟩

/-- Successful single-network normalization always carries the
requested network type, whatever the payload holds. -/
theorem normalize_single_delay_nt (f t : String) (nt : NetworkType) (p : JSON)
    (r : SingleDelayResult) (h : normalize_single_delay f t nt p = .ok r) :
    r.network_type = nt := by
  unfold normalize_single_delay at h
  split at h
  · exact Except.noConfusion h
  · split at h
    · split at h
      · injection h with h'
        rw [← h']
      · exact Except.noConfusion h
    · exact Except.noConfusion h

/-- C1: for a single-network delay query with `network_type =
private_line`, the dispatcher selects the type-specific path
`/sdn/city/delay`, and the backend payload
`{"from_city":"HKG","to_city":"NYC","delay":"180ms"}` normalizes to the
single-network result `{from:"HKG", to:"NYC",
network_type:private_line, delay:"180ms"}`; moreover, every successful
single-network result carries the network type of the request, never
one read from the backend payload. -/
theorem c1_single_network_dispatch :
    delay_endpoint_path (some .private_line) = "/sdn/city/delay" ∧
    get_city_delay_single "HKG" "NYC" .private_line
      (.success (.obj [("from_city", .str "HKG"), ("to_city", .str "NYC"),
        ("delay", .str "180ms")]))
      = .ok ⟨"HKG", "NYC", .private_line, "180ms"⟩ ∧
    ∀ (f t : String) (nt : NetworkType) (p : JSON) (r : SingleDelayResult),
      get_city_delay_single f t nt (.success p) = .ok r → r.network_type = nt := by
  refine ⟨rfl, rfl, ?_⟩
  intro f t nt p r h
  unfold get_city_delay_single at h
  split at h
  · exact Except.noConfusion h
  · exact normalize_single_delay_nt f t nt p r h

/-- C1 witness: the universal part of the statement applied to a
payload that even carries a bogus `network_type` key: the result's
network type is still the request's. -/
theorem c1_single_network_dispatch_witness :
    delay_endpoint_path (some .private_line) = "/sdn/city/delay" ∧
    SingleDelayResult.network_type ⟨"HKG", "NYC", .private_line, "175ms"⟩
      = .private_line := by
  refine ⟨c1_single_network_dispatch.1, ?_⟩
  exact c1_single_network_dispatch.2.2 "HKG" "NYC" .private_line
    (.obj [("from_city", .str "HKG"), ("to_city", .str "NYC"),
      ("delay", .str "175ms"), ("network_type", .str "public_network")])
    ⟨"HKG", "NYC", .private_line, "175ms"⟩ rfl

/-- C8: for the two sequence-returning queries, a 2xx empty-sequence
payload normalizes to the successful empty result list, and a 2xx
sequence all of whose elements parse is mapped item-wise into the entry
type: the result has one entry per payload element and the i-th entry
is the parse of the i-th element. -/
theorem c8_empty_and_itemwise :
    ∀ city : String,
      get_eyeball_coverage city (.success (.arr [])) = .ok [] ∧
      execute_zga_test city (.success (.arr [])) = .ok [] ∧
      (∀ items : List JSON, (∀ j ∈ items, ∃ a, parse_eyeball_item j = .ok a) →
        ∃ rs, get_eyeball_coverage city (.success (.arr items)) = .ok rs ∧
          rs.length = items.length ∧
          ∀ (i : Nat) (hi : i < items.length) (hr : i < rs.length),
            parse_eyeball_item (items.get ⟨i, hi⟩) = .ok (rs.get ⟨i, hr⟩)) ∧
      (∀ items : List JSON, (∀ j ∈ items, ∃ a, parse_zga_item j = .ok a) →
        ∃ rs, execute_zga_test city (.success (.arr items)) = .ok rs ∧
          rs.length = items.length ∧
          ∀ (i : Nat) (hi : i < items.length) (hr : i < rs.length),
            parse_zga_item (items.get ⟨i, hi⟩) = .ok (rs.get ⟨i, hr⟩)) := by
  intro city
  refine ⟨rfl, rfl, ?_, ?_⟩
  · intro items h
    obtain ⟨rs, h1, h2, h3⟩ := collectItems_ok_of_forall parse_eyeball_item items h
    refine ⟨rs, ?_, h2, h3⟩
    show normalize_entry_list parse_eyeball_item (.arr items) = .ok rs
    simp only [normalize_entry_list, iterateJSON, h1]
  · intro items h
    obtain ⟨rs, h1, h2, h3⟩ := collectItems_ok_of_forall parse_zga_item items h
    refine ⟨rs, ?_, h2, h3⟩
    show normalize_entry_list parse_zga_item (.arr items) = .ok rs
    simp only [normalize_entry_list, iterateJSON, h1]

/-- C8 witness: the item-wise part applied to one-element concrete
sequences for both query kinds. -/
theorem c8_empty_and_itemwise_witness :
    (∃ rs, get_eyeball_coverage "SZX" (.success (.arr
      [.obj [("agent_city_code", .str "SZX"), ("eye_city_name", .str "Shenzhen"),
        ("eye_country_name", .str "China"), ("org_name", .str "China Mobile"),
        ("asn", .str "AS9808"), ("delay", .num 12)]]))
      = .ok rs ∧ rs.length = 1) ∧
    (∃ rs, execute_zga_test "SZX" (.success (.arr
      [.obj [("via_public_internet_delay", .str "120ms"),
        ("via_zga_delay", .str "80ms"), ("target", .str "FRA"),
        ("improvement_percentage", .str "33%")]]))
      = .ok rs ∧ rs.length = 1) := by
  constructor
  · obtain ⟨rs, h1, h2, _⟩ := ((c8_empty_and_itemwise "SZX").2.2.1)
      [.obj [("agent_city_code", .str "SZX"), ("eye_city_name", .str "Shenzhen"),
        ("eye_country_name", .str "China"), ("org_name", .str "China Mobile"),
        ("asn", .str "AS9808"), ("delay", .num 12)]]
      (by intro j hj; rw [List.mem_singleton] at hj; subst hj; exact ⟨_, rfl⟩)
    exact ⟨rs, h1, by simpa using h2⟩
  · obtain ⟨rs, h1, h2, _⟩ := ((c8_empty_and_itemwise "SZX").2.2.2)
      [.obj [("via_public_internet_delay", .str "120ms"),
        ("via_zga_delay", .str "80ms"), ("target", .str "FRA"),
        ("improvement_percentage", .str "33%")]]
      (by intro j hj; rw [List.mem_singleton] at hj; subst hj; exact ⟨_, rfl⟩)
    exact ⟨rs, h1, by simpa using h2⟩

end ZenLG
